import Mathlib

/-!
Shallow embedding of the ConnectionBreaker application (src/source/src/main.py)
and proofs about its hotkey handling, connection-killing command, startup flow,
hotkey-listener thread, and process-loader thread.

The Python program is a PyQt6 GUI; the embedding models the pure decision logic
of each function and represents OS / subprocess / Qt side effects as explicit
effect values or trace events, with the outcomes of fallible OS calls passed in
as parameters.
-/

namespace ConnectionBreaker

/-- The modifier-key set used by both `is_valid_hotkey` and
`MainWindow.set_new_hotkey` (main.py lines 79 and 685). -/
def MODIFIERS : List String := ["ctrl", "alt", "shift", "win"]

/-- The Russian-to-English keyboard-layout map (main.py lines 62-66). -/
def RU_TO_EN_MAP : List (String × String) :=
  [("й", "q"), ("ц", "w"), ("у", "e"), ("к", "r"), ("е", "t"), ("н", "y"),
   ("г", "u"), ("ш", "i"), ("щ", "o"), ("з", "p"), ("х", "["), ("ъ", "]"),
   ("ф", "a"), ("ы", "s"), ("в", "d"), ("а", "f"), ("п", "g"), ("р", "h"),
   ("о", "j"), ("л", "k"), ("д", "l"), ("ж", ";"), ("э", "'"),
   ("я", "z"), ("ч", "x"), ("с", "c"), ("м", "v"), ("и", "b"), ("т", "n"),
   ("ь", "m"), ("б", ","), ("ю", ".")]

/-- `RU_TO_EN_MAP.get(part, part)`: translate a single hotkey part, leaving it
unchanged when it is not a Cyrillic key. -/
def ruToEn (part : String) : String :=
  match RU_TO_EN_MAP.find? (fun q => q.1 == part) with
  | some q => q.2
  | none => part

/-- Split a character list at every occurrence of `sep`; the list-of-characters
core of Python's `str.split(sep)` for a one-character separator.  As in Python,
the empty input yields one empty field and a trailing separator yields a
trailing empty field. -/
def splitOnChar (sep : Char) : List Char → List (List Char)
  | [] => [[]]
  | c :: cs =>
    match splitOnChar sep cs with
    | [] => if c == sep then [[], []] else [[c]]
    | r :: rs => if c == sep then [] :: r :: rs else (c :: r) :: rs

/-- Python `s.split(sep)` for a one-character separator, on strings. -/
def pySplit (sep : Char) (s : String) : List String :=
  (splitOnChar sep s.data).map String.mk

/-- Python `s.lower()`.  Restricted to ASCII case mapping, which covers every
hotkey part the program compares: the modifier names, `esc`, `backspace`, and
the `RU_TO_EN_MAP` keys are already lowercase. -/
def pyLower (s : String) : String :=
  String.mk (s.data.map Char.toLower)

/-- Python `s.strip()`: remove leading and trailing whitespace. -/
def pyStrip (s : String) : String :=
  String.mk (((s.data.dropWhile Char.isWhitespace).reverse.dropWhile
    Char.isWhitespace).reverse)

/-- Python `sep.join(parts)`. -/
def pyJoin (sep : String) : List String → String
  | [] => ""
  | [x] => x
  | x :: xs => x ++ sep ++ pyJoin sep xs

/-- Python falsiness of a string: only the empty string is falsy. -/
def strFalsy (s : String) : Bool := s.data.isEmpty

/-- Keep the first occurrence of every element: the distinct parts of the
Python set comprehension `{part.strip().lower() for part in ...}` as a list. -/
def dedupKeepFirst : List String → List String
  | [] => []
  | x :: xs => x :: (dedupKeepFirst xs).filter (fun y => !(y == x))

/-- `is_valid_hotkey` (main.py lines 70-85): split on `+`, strip and lowercase
each part, deduplicate (Python builds a set), and accept exactly when there is
exactly one distinct non-modifier part.  An empty string is rejected up front. -/
def is_valid_hotkey (hotkey_str : String) : Bool :=
  if strFalsy hotkey_str then
    false
  else
    let parts := dedupKeepFirst ((pySplit '+' hotkey_str).map
      (fun p => pyLower (pyStrip p)))
    (parts.filter (fun p => !MODIFIERS.contains p)).length == 1

/-- The hotkey-relevant state of `MainWindow`: the stored hotkey string
(`self.current_hotkey`, `none` = Python `None`) and the hotkey the running
`HotkeyListener` thread is registered on (`none` = no listener running). -/
structure HKState where
  current_hotkey : Option String
  listener : Option String
deriving Repr, DecidableEq

/-- Python truthiness of an optional string: `None` and `""` are falsy. -/
def pyTruthy (o : Option String) : Bool :=
  match o with
  | none => false
  | some s => !strFalsy s

/-- `MainWindow.start_hotkey_listener` (main.py lines 720-730): stop the old
listener if it is running, then start a new one exactly when
`self.current_hotkey` is truthy, registered on the current hotkey. -/
def start_hotkey_listener (s : HKState) : HKState :=
  { s with listener := if pyTruthy s.current_hotkey then s.current_hotkey else none }

/-- The observable outcome of one `set_new_hotkey` call: the hotkey was
cleared, rejected with the "Too many modifiers!" message, rejected with the
"Invalid Combination!" message, or accepted. -/
inductive SetHotkeyOutcome where
  | cleared
  | tooManyModifiers
  | invalidCombination
  | accepted
deriving Repr, DecidableEq

/-- The `parts` local of `set_new_hotkey`: split the lowercased hotkey on `+`
and strip each part.  (On the branch where `parts` is computed the hotkey is
known to be non-empty, so `hotkey_lower` is just the lowercased hotkey.) -/
def hotkeyParts (hotkey : String) : List String :=
  (pySplit '+' (pyLower hotkey)).map pyStrip

/-- The `modifier_keys` local of `set_new_hotkey`. -/
def hotkeyModifierKeys (hotkey : String) : List String :=
  (hotkeyParts hotkey).filter (fun p => MODIFIERS.contains p)

/-- The `non_modifier_keys` local of `set_new_hotkey`. -/
def hotkeyNonModifierKeys (hotkey : String) : List String :=
  (hotkeyParts hotkey).filter (fun p => !MODIFIERS.contains p)

/-- `MainWindow.set_new_hotkey` (main.py lines 673-718).  Returns the updated
hotkey/listener state together with the outcome.  On the two rejection paths the
method returns early: the state is untouched and the listener is not restarted.
On the clear and accept paths `restart_hotkey_listener` (an alias for
`start_hotkey_listener`) runs. -/
def set_new_hotkey (s : HKState) (hotkey : String) : HKState × SetHotkeyOutcome :=
  let hotkey_lower := if strFalsy hotkey then "" else pyLower hotkey
  if strFalsy hotkey || hotkey_lower == "esc" || hotkey_lower == "backspace" then
    (start_hotkey_listener { s with current_hotkey := none }, .cleared)
  else
    let parts := hotkeyParts hotkey
    let modifier_keys := hotkeyModifierKeys hotkey
    let non_modifier_keys := hotkeyNonModifierKeys hotkey
    if modifier_keys.length > 1 then
      (s, .tooManyModifiers)
    else if non_modifier_keys.length > 1 then
      let final_hotkey_parts := modifier_keys ++ [non_modifier_keys.getLastD ""]
      let translated_parts := final_hotkey_parts.map ruToEn
      (start_hotkey_listener
        { s with current_hotkey := some (pyJoin " + " translated_parts) },
       .accepted)
    else if non_modifier_keys.isEmpty && modifier_keys.length > 0 then
      (s, .invalidCombination)
    else
      let translated_parts := parts.map ruToEn
      (start_hotkey_listener
        { s with current_hotkey := some (pyJoin " + " translated_parts) },
       .accepted)

/-- Outcome of the `subprocess.run(command, check=True, ...)` call inside
`kill_connections`: success, a `CalledProcessError` from a non-zero exit, or
any other exception raised by the invocation. -/
inductive SubprocResult where
  | ok
  | calledProcessError
  | exn
deriving Repr, DecidableEq

/-- The part of `MainWindow` state that `kill_connections` reads:
`self.is_paused` and `self.selected_process` (`none` = Python `None`). -/
structure KillState where
  is_paused : Bool
  selected_process : Option String
deriving Repr, DecidableEq

/-- Side effects a `kill_connections` call can perform: launching the external
tool with a concrete argument vector, or printing a log line.  There is no
socket-touching effect: the Python method performs none. -/
inductive KillEffect where
  | runSubprocess (cmd : List String)
  | logMsg
deriving Repr, DecidableEq

/-- `MainWindow.kill_connections` (main.py lines 633-654).  `cportsPath` stands
for the runtime value of `CPORTS_PATH` (`resource_path("cports.exe")`) and
`cportsExists` for `os.path.exists(CPORTS_PATH)`.  Returns the (unchanged)
state and the list of effects, in order.  The first guard uses Python
truthiness, so an empty selected-process string also returns early; a missing
`cports.exe` logs and returns; a failing subprocess invocation is caught by
`except (subprocess.CalledProcessError, Exception)` and logged. -/
def kill_connections (cportsPath : String) (cportsExists : Bool)
    (subproc : SubprocResult) (s : KillState) : KillState × List KillEffect :=
  if s.is_paused || !pyTruthy s.selected_process then
    (s, [])
  else
    match s.selected_process with
    | none => (s, [])
    | some name =>
      if !cportsExists then
        (s, [.logMsg])
      else
        let command := [cportsPath, "/close", "*", "*", "*", "*", name]
        match subproc with
        | .ok => (s, [.runSubprocess command])
        | _ => (s, [.runSubprocess command, .logMsg])

/-- `ProcessDialog.accept` (main.py lines 377-383): when a list item is
currently selected, its text becomes `self.selected_process`; otherwise the
previous value is kept. -/
def process_dialog_accept (currentItemText : Option String)
    (selected_process : Option String) : Option String :=
  match currentItemText with
  | some t => some t
  | none => selected_process

/-- Outcome of the `keyboard.add_hotkey` call in `HotkeyListener.run`. -/
inductive AddHotkeyResult where
  | ok
  | raises
deriving Repr, DecidableEq

/-- Outcome of the `keyboard.remove_hotkey` call in the `finally` block of
`HotkeyListener.run`. -/
inductive RemoveHotkeyResult where
  | ok
  | keyError
  | valueError
  | otherError
deriving Repr, DecidableEq

/-- Trace events of one execution of `HotkeyListener.run`. -/
inductive ListenerEvent where
  | addHotkey (hk : String)
  | waitLoop
  | removeHotkeyAttempt (hk : String)
deriving Repr, DecidableEq

/-- How `HotkeyListener.run` terminates: a normal return, the exception from
`keyboard.add_hotkey` propagating out of the `finally`, or an exception from
`keyboard.remove_hotkey` other than `KeyError`/`ValueError` propagating. -/
inductive RunOutcome where
  | normal
  | raisesFromAdd
  | raisesFromRemove
deriving Repr, DecidableEq

/-- `HotkeyListener.run` (main.py lines 146-159).  The body registers the
hotkey and sleeps in a loop until `stop()`; the `finally` block always attempts
`keyboard.remove_hotkey`, swallowing `KeyError` and `ValueError`.  Per Python
semantics, an exception raised inside the `finally` replaces the in-flight one,
and an in-flight exception resumes propagation after a clean `finally`. -/
def listener_run (hk : String) (add : AddHotkeyResult)
    (remove : RemoveHotkeyResult) : List ListenerEvent × RunOutcome :=
  match add with
  | .raises =>
    match remove with
    | .otherError => ([.addHotkey hk, .removeHotkeyAttempt hk], .raisesFromRemove)
    | _ => ([.addHotkey hk, .removeHotkeyAttempt hk], .raisesFromAdd)
  | .ok =>
    match remove with
    | .otherError =>
      ([.addHotkey hk, .waitLoop, .removeHotkeyAttempt hk], .raisesFromRemove)
    | _ => ([.addHotkey hk, .waitLoop, .removeHotkeyAttempt hk], .normal)

/-- The psutil exceptions caught by the enumeration loops. -/
inductive PsError where
  | noSuchProcess
  | accessDenied
  | zombieProcess
deriving Repr, DecidableEq

/-- What querying one PID yields inside `ProcessLoaderThread.run`: either the
process name together with its command-line list, or one of the caught psutil
exceptions (raised by `psutil.Process`, `.name()` or `.cmdline()`). -/
abbrev PidQuery := Nat × Except PsError (String × List String)

/-- The loop body of `ProcessLoaderThread.run` (main.py lines 181-198),
with the accumulated `added_process_names` set threaded through as the list of
lowercased names already added.  A PID whose query raised is skipped; a name
already present case-insensitively, or a process with an empty command line,
is skipped without extending the set; otherwise `{'name': p_name, 'pid': pid}`
is appended and the lowercased name recorded. -/
def loader_loop : List PidQuery → List String → List (String × Nat)
  | [], _ => []
  | (_, .error _) :: rest, seen => loader_loop rest seen
  | (pid, .ok (p_name, cmdline)) :: rest, seen =>
    if seen.contains (pyLower p_name) || cmdline.isEmpty then
      loader_loop rest seen
    else
      (p_name, pid) :: loader_loop rest (pyLower p_name :: seen)

/-- `ProcessLoaderThread.run`: the full list emitted by the
`processes_ready` signal, starting from an empty `added_process_names` set. -/
def processLoaderRun (pids : List PidQuery) : List (String × Nat) :=
  loader_loop pids []

/-- `is_admin` (main.py lines 31-36): returns the result of
`ctypes.windll.shell32.IsUserAnAdmin()`, and `False` when that call raises
(the bare `except`). -/
def is_admin (osCall : Except Unit Bool) : Bool :=
  match osCall with
  | .ok b => b
  | .error _ => false

/-- The shared-memory key of the single-instance lock (main.py line 844). -/
def lock_key : String := "ConnectionBreaker_SingleInstance_Lock"

/-- Trace events of the `__main__` block (main.py lines 824-879). -/
inductive MainEvent where
  | adminErrorBox
  | exitWith (code : Nat)
  | attachSharedMemory (key : String)
  | alreadyRunningBox
  | createSharedMemory (key : String) (size : Nat)
  | lockErrorLog
  | createMainWindow
  | execApp
deriving Repr, DecidableEq

/-- The `__main__` block (main.py lines 824-879) as a trace over the outcomes
of its three fallible steps: the admin check, `shared_memory.attach()` and
`shared_memory.create(1)`.  A failed admin check shows an error box and exits
with code 1 before the lock is touched; a successful attach shows the
already-running box and exits with code 0 before any window is built; a failed
create logs and exits with code 1; otherwise the main window is created and the
event loop runs. -/
def main_trace (adminCall : Except Unit Bool) (attachOk createOk : Bool) :
    List MainEvent :=
  if !is_admin adminCall then
    [.adminErrorBox, .exitWith 1]
  else if attachOk then
    [.attachSharedMemory lock_key, .alreadyRunningBox, .exitWith 0]
  else if !createOk then
    [.attachSharedMemory lock_key, .createSharedMemory lock_key 1,
     .lockErrorLog, .exitWith 1]
  else
    [.attachSharedMemory lock_key, .createSharedMemory lock_key 1,
     .createMainWindow, .execApp]

/-- C3: at startup (past the admin check) the program attaches to the named
shared-memory handle `ConnectionBreaker_SingleInstance_Lock`; a successful
attach shows the already-running error box and exits with code 0 without
creating the main window; a failed attach followed by a failed 1-byte create
exits with code 1; a failed attach with a successful 1-byte create proceeds to
create the main window and run the event loop. -/
theorem startup_single_instance_lock (createOk : Bool) :
    lock_key = "ConnectionBreaker_SingleInstance_Lock" ∧
    main_trace (Except.ok true) true createOk =
      [MainEvent.attachSharedMemory lock_key, MainEvent.alreadyRunningBox,
       MainEvent.exitWith 0] ∧
    main_trace (Except.ok true) false false =
      [MainEvent.attachSharedMemory lock_key,
       MainEvent.createSharedMemory lock_key 1, MainEvent.lockErrorLog,
       MainEvent.exitWith 1] ∧
    main_trace (Except.ok true) false true =
      [MainEvent.attachSharedMemory lock_key,
       MainEvent.createSharedMemory lock_key 1, MainEvent.createMainWindow,
       MainEvent.execApp] := by
  refine ⟨rfl, ?_, rfl, rfl⟩
  cases createOk <;> rfl

/-- C4: whenever the admin check fails — in particular `is_admin` returns
`False` when the underlying OS call raises — the program shows the error box
and exits with code 1, a trace that touches neither the shared-memory lock nor
any window, whatever the lock steps would have returned. -/
theorem admin_failure_exits_before_lock_and_window
    (adminCall : Except Unit Bool) (attachOk createOk : Bool)
    (h : is_admin adminCall = false) :
    is_admin (Except.error ()) = false ∧
    main_trace adminCall attachOk createOk =
      [MainEvent.adminErrorBox, MainEvent.exitWith 1] := by
  exact ⟨rfl, by simp [main_trace, h]⟩

/-- Witness for C4: with the OS admin call raising and both lock steps
nominally able to succeed, the program still exits with code 1 before the lock
or the window. -/
theorem admin_failure_exits_before_lock_and_window_witness :
    is_admin (Except.error ()) = false ∧
    main_trace (Except.error ()) true true =
      [MainEvent.adminErrorBox, MainEvent.exitWith 1] := by
  exact admin_failure_exits_before_lock_and_window (Except.error ()) true true
    (by decide)

/-- C7: every execution of `HotkeyListener.run` — whether `keyboard.add_hotkey`
succeeded or raised, and whatever `keyboard.remove_hotkey` does — attempts the
hotkey removal in its `finally` block; a `KeyError` or `ValueError` from the
removal is swallowed (it never becomes the propagating exception), and in the
normal-stop case the thread returns cleanly whenever the removal does not raise
an unrelated exception. -/
theorem listener_run_always_attempts_removal (hk : String)
    (add : AddHotkeyResult) (remove : RemoveHotkeyResult) :
    ListenerEvent.removeHotkeyAttempt hk ∈ (listener_run hk add remove).1 ∧
    (remove = RemoveHotkeyResult.keyError ∨ remove = RemoveHotkeyResult.valueError →
      (listener_run hk add remove).2 ≠ RunOutcome.raisesFromRemove) ∧
    (add = AddHotkeyResult.ok →
      remove ≠ RemoveHotkeyResult.otherError →
      (listener_run hk add remove).2 = RunOutcome.normal) := by
  cases add <;> cases remove <;> simp [listener_run]

/-- Witness for C7: with a successful registration and a `KeyError` from the
removal, the removal is attempted, not promoted to the outcome, and the thread
ends normally. -/
theorem listener_run_always_attempts_removal_witness :
    ListenerEvent.removeHotkeyAttempt "ctrl + k" ∈
      (listener_run "ctrl + k" AddHotkeyResult.ok RemoveHotkeyResult.keyError).1 ∧
    (listener_run "ctrl + k" AddHotkeyResult.ok RemoveHotkeyResult.keyError).2 ≠
      RunOutcome.raisesFromRemove ∧
    (listener_run "ctrl + k" AddHotkeyResult.ok RemoveHotkeyResult.keyError).2 =
      RunOutcome.normal := by
  obtain ⟨h1, h2, h3⟩ :=
    listener_run_always_attempts_removal "ctrl + k" AddHotkeyResult.ok
      RemoveHotkeyResult.keyError
  exact ⟨h1, h2 (Or.inl rfl), h3 rfl (by decide)⟩

/-- C1 (counterexample): a hotkey press while the tray "Pause" toggle is on
reaches `kill_connections` — the hotkey stays registered — but launches no
subprocess at all, so a press does not always invoke the external tool. -/
theorem kill_connections_paused_press_counterexample :
    kill_connections "cports.exe" true SubprocResult.ok
      ⟨true, some "game.exe"⟩ = (⟨true, some "game.exe"⟩, []) := by
  rfl

/-- C1 (amended): whenever a hotkey press reaches `kill_connections` with the
pause toggle off, a (non-empty) selected process name, and `cports.exe`
present, the invocation of the external tool does occur and its argument
vector is exactly the tool path followed by `/close * * * *` and the selected
process name; every effect of the call is either that one invocation or a log
line — the method touches no socket itself and leaves the state unchanged. -/
theorem kill_connections_delegates_exact_args (cportsPath name : String)
    (sp : SubprocResult) (hname : strFalsy name = false) :
    (kill_connections cportsPath true sp ⟨false, some name⟩).1 =
      ⟨false, some name⟩ ∧
    KillEffect.runSubprocess [cportsPath, "/close", "*", "*", "*", "*", name] ∈
      (kill_connections cportsPath true sp ⟨false, some name⟩).2 ∧
    (∀ e ∈ (kill_connections cportsPath true sp ⟨false, some name⟩).2,
      e = KillEffect.runSubprocess
            [cportsPath, "/close", "*", "*", "*", "*", name] ∨
      e = KillEffect.logMsg) := by
  cases sp <;> simp [kill_connections, pyTruthy, hname]

/-- Witness for C1 (amended): an unpaused press targeting `game.exe` with the
tool present runs exactly `cports.exe /close * * * * game.exe`. -/
theorem kill_connections_delegates_exact_args_witness :
    (kill_connections "cports.exe" true SubprocResult.ok
      ⟨false, some "game.exe"⟩).1 = ⟨false, some "game.exe"⟩ ∧
    KillEffect.runSubprocess
        ["cports.exe", "/close", "*", "*", "*", "*", "game.exe"] ∈
      (kill_connections "cports.exe" true SubprocResult.ok
        ⟨false, some "game.exe"⟩).2 := by
  obtain ⟨h1, h2, _⟩ :=
    kill_connections_delegates_exact_args "cports.exe" "game.exe"
      SubprocResult.ok (by decide)
  exact ⟨h1, h2⟩

/-- C5: accepting the process dialog with a selected list item stores that
item's text as the selected process, and `kill_connections` passes exactly
that string, unmodified, as the final argument of the tool's command line. -/
theorem selected_item_text_is_final_argument (t cportsPath : String)
    (prev : Option String) (sp : SubprocResult) (ht : strFalsy t = false) :
    process_dialog_accept (some t) prev = some t ∧
    (∀ cmd, KillEffect.runSubprocess cmd ∈
        (kill_connections cportsPath true sp
          ⟨false, process_dialog_accept (some t) prev⟩).2 →
      cmd = [cportsPath, "/close", "*", "*", "*", "*", t] ∧
      cmd.getLast? = some t) := by
  refine ⟨rfl, fun cmd hmem => ?_⟩
  have h := hmem
  cases sp <;> simp [process_dialog_accept, kill_connections, pyTruthy, ht] at h <;>
    simp [process_dialog_accept, h]

/-- Witness for C5: selecting the item `firefox.exe` stores that name and the
command line ends with exactly that string. -/
theorem selected_item_text_is_final_argument_witness :
    process_dialog_accept (some "firefox.exe") none = some "firefox.exe" ∧
    ["cports.exe", "/close", "*", "*", "*", "*", "firefox.exe"] =
      ["cports.exe", "/close", "*", "*", "*", "*", "firefox.exe"] ∧
    ["cports.exe", "/close", "*", "*", "*", "*", "firefox.exe"].getLast? =
      some "firefox.exe" := by
  obtain ⟨h1, h2⟩ :=
    selected_item_text_is_final_argument "firefox.exe" "cports.exe" none
      SubprocResult.ok (by decide)
  obtain ⟨h3, h4⟩ :=
    h2 ["cports.exe", "/close", "*", "*", "*", "*", "firefox.exe"] (by decide)
  exact ⟨h1, by rfl, h4⟩

/-- C6: `kill_connections` never changes the application state, is a silent
no-op when paused or when no process is selected (including the falsy empty
name), launches nothing when `cports.exe` is missing (it only logs), and when
the subprocess invocation fails — non-zero exit or any other exception — the
failure is caught and a log line emitted.  Totality of the embedding reflects
that the `except (subprocess.CalledProcessError, Exception)` handler lets no
exception propagate. -/
theorem kill_connections_guarded_noop (cportsPath : String)
    (cportsExists : Bool) (sp : SubprocResult) (s : KillState) :
    (kill_connections cportsPath cportsExists sp s).1 = s ∧
    (s.is_paused = true →
      (kill_connections cportsPath cportsExists sp s).2 = []) ∧
    (pyTruthy s.selected_process = false →
      (kill_connections cportsPath cportsExists sp s).2 = []) ∧
    (cportsExists = false →
      ∀ cmd, KillEffect.runSubprocess cmd ∉
        (kill_connections cportsPath cportsExists sp s).2) ∧
    (sp ≠ SubprocResult.ok → s.is_paused = false →
      pyTruthy s.selected_process = true → cportsExists = true →
      KillEffect.logMsg ∈ (kill_connections cportsPath cportsExists sp s).2) := by
  obtain ⟨p, sel⟩ := s
  cases sel with
  | none => cases p <;> cases cportsExists <;> cases sp <;>
      simp [kill_connections, pyTruthy]
  | some nm =>
    cases p <;> cases cportsExists <;> cases sp <;>
      by_cases hnm : strFalsy nm = true <;>
      simp_all [kill_connections, pyTruthy]

/-- Witness for C6: with the pause toggle on nothing is launched; and a
non-zero exit of the tool at an unpaused press is logged. -/
theorem kill_connections_guarded_noop_witness :
    (kill_connections "cports.exe" true SubprocResult.ok
      ⟨true, some "game.exe"⟩).1 = ⟨true, some "game.exe"⟩ ∧
    (kill_connections "cports.exe" true SubprocResult.ok
      ⟨true, some "game.exe"⟩).2 = [] ∧
    KillEffect.logMsg ∈ (kill_connections "cports.exe" true
      SubprocResult.calledProcessError ⟨false, some "game.exe"⟩).2 := by
  refine ⟨(kill_connections_guarded_noop "cports.exe" true SubprocResult.ok
    ⟨true, some "game.exe"⟩).1, ?_, ?_⟩
  · exact (kill_connections_guarded_noop "cports.exe" true SubprocResult.ok
      ⟨true, some "game.exe"⟩).2.1 rfl
  · exact (kill_connections_guarded_noop "cports.exe" true
      SubprocResult.calledProcessError ⟨false, some "game.exe"⟩).2.2.2.2
      (by decide) rfl (by decide) rfl

/-- C8: a captured hotkey that is empty, `esc`, or `backspace` — compared
case-insensitively via the lowercasing — clears `current_hotkey` to `None`,
and the listener restart stops any running listener without starting a new
one, so no hotkey remains registered. -/
theorem clearing_capture_unregisters_hotkey (s : HKState) (hotkey : String)
    (hc : strFalsy hotkey = true ∨ pyLower hotkey = "esc" ∨
      pyLower hotkey = "backspace") :
    set_new_hotkey s hotkey =
      ({ current_hotkey := none, listener := none }, SetHotkeyOutcome.cleared) := by
  rcases hc with hc | hc | hc
  · simp [set_new_hotkey, start_hotkey_listener, pyTruthy, hc]
  · by_cases hf : strFalsy hotkey = true <;>
      simp [set_new_hotkey, start_hotkey_listener, pyTruthy, hc, hf]
  · by_cases hf : strFalsy hotkey = true <;>
      simp [set_new_hotkey, start_hotkey_listener, pyTruthy, hc, hf]

/-- Witness for C8: capturing `ESC` (uppercase, exercising the
case-insensitive comparison) with a listener running on `ctrl + k` clears the
hotkey and leaves no listener registered. -/
theorem clearing_capture_unregisters_hotkey_witness :
    set_new_hotkey ⟨some "ctrl + k", some "ctrl + k"⟩ "ESC" =
      ({ current_hotkey := none, listener := none }, SetHotkeyOutcome.cleared) := by
  exact clearing_capture_unregisters_hotkey ⟨some "ctrl + k", some "ctrl + k"⟩
    "ESC" (Or.inr (Or.inl (by decide)))

/-- C2 (counterexample): `ctrl+alt+k` consists of two modifiers plus exactly
one non-modifier key — the unused helper `is_valid_hotkey` even accepts it —
yet capturing it is rejected with "Too many modifiers!" and the current hotkey
stays unset; conversely `a+d` has two non-modifier keys yet is accepted (as
`d`) rather than rejected. -/
theorem hotkey_validation_counterexample :
    is_valid_hotkey "ctrl+alt+k" = true ∧
    set_new_hotkey ⟨none, none⟩ "ctrl+alt+k" =
      ({ current_hotkey := none, listener := none },
       SetHotkeyOutcome.tooManyModifiers) ∧
    set_new_hotkey ⟨none, none⟩ "a+d" =
      ({ current_hotkey := some "d", listener := some "d" },
       SetHotkeyOutcome.accepted) := by
  decide

/-- C2 (amended): a captured combination (other than the clearing keys) with
at most one modifier key and at least one non-modifier key is accepted and
becomes the current hotkey — when several non-modifier keys are present, the
modifiers plus the last non-modifier are kept; a combination with more than
one modifier key is rejected with "Too many modifiers!", and one consisting
only of modifier keys is rejected as invalid, both leaving the state
untouched. -/
theorem set_new_hotkey_acceptance (s : HKState) (hotkey : String)
    (hne : strFalsy hotkey = false) (hesc : pyLower hotkey ≠ "esc")
    (hbk : pyLower hotkey ≠ "backspace") :
    ((hotkeyModifierKeys hotkey).length ≤ 1 →
      1 ≤ (hotkeyNonModifierKeys hotkey).length →
      (set_new_hotkey s hotkey).2 = SetHotkeyOutcome.accepted ∧
      (set_new_hotkey s hotkey).1.current_hotkey =
        some (pyJoin " + "
          ((if 1 < (hotkeyNonModifierKeys hotkey).length then
              hotkeyModifierKeys hotkey ++
                [(hotkeyNonModifierKeys hotkey).getLastD ""]
            else hotkeyParts hotkey).map ruToEn))) ∧
    (1 < (hotkeyModifierKeys hotkey).length →
      set_new_hotkey s hotkey = (s, SetHotkeyOutcome.tooManyModifiers)) ∧
    ((hotkeyNonModifierKeys hotkey).length = 0 →
      1 ≤ (hotkeyModifierKeys hotkey).length →
      (hotkeyModifierKeys hotkey).length ≤ 1 →
      set_new_hotkey s hotkey = (s, SetHotkeyOutcome.invalidCombination)) := by
  refine ⟨fun hm hn => ?_, fun hm => ?_, fun hz hm1 hm2 => ?_⟩
  · have hm' : ¬ 1 < (hotkeyModifierKeys hotkey).length := by omega
    by_cases hg : 1 < (hotkeyNonModifierKeys hotkey).length
    · simp [set_new_hotkey, hne, hesc, hbk, hm', hg, start_hotkey_listener]
    · have hnn : ¬(hotkeyNonModifierKeys hotkey = [] ∧
          0 < (hotkeyModifierKeys hotkey).length) := by
        rintro ⟨h1, _⟩
        rw [h1] at hn
        simp at hn
      simp [set_new_hotkey, hne, hesc, hbk, hm', hg, hnn, start_hotkey_listener]
  · simp [set_new_hotkey, hne, hesc, hbk, hm]
  · have hm' : ¬ 1 < (hotkeyModifierKeys hotkey).length := by omega
    have hz' : hotkeyNonModifierKeys hotkey = [] := List.length_eq_zero.mp hz
    have hg : ¬ 1 < (hotkeyNonModifierKeys hotkey).length := by omega
    have hmne : hotkeyModifierKeys hotkey ≠ [] := by
      intro h
      rw [h] at hm1
      simp at hm1
    simp [set_new_hotkey, hne, hesc, hbk, hm', hg, hz', hm1, hmne]

/-- Witness for C2 (amended): capturing `ctrl+k` is accepted and the stored
hotkey is the joined translation of its parts. -/
theorem set_new_hotkey_acceptance_witness :
    (set_new_hotkey ⟨none, none⟩ "ctrl+k").2 = SetHotkeyOutcome.accepted ∧
    (set_new_hotkey ⟨none, none⟩ "ctrl+k").1.current_hotkey =
      some (pyJoin " + "
        ((if 1 < (hotkeyNonModifierKeys "ctrl+k").length then
            hotkeyModifierKeys "ctrl+k" ++
              [(hotkeyNonModifierKeys "ctrl+k").getLastD ""]
          else hotkeyParts "ctrl+k").map ruToEn)) := by
  exact (set_new_hotkey_acceptance ⟨none, none⟩ "ctrl+k" (by decide) (by decide)
    (by decide)).1 (by decide) (by decide)

/-- The invariant of the `ProcessLoaderThread.run` loop, generalized over the
already-seen lowercased names: the emitted names are pairwise distinct
case-insensitively and avoid the seen set, and every emitted entry comes from
a successful query of its own PID whose command line was non-empty. -/
theorem loader_loop_invariant (pids : List PidQuery) (seen : List String) :
    ((loader_loop pids seen).map (fun e => pyLower e.1)).Nodup ∧
    ∀ e ∈ loader_loop pids seen,
      seen.contains (pyLower e.1) = false ∧
      ∃ cmdline, (e.2, Except.ok (e.1, cmdline)) ∈ pids ∧ cmdline ≠ [] := by
  induction pids generalizing seen with
  | nil => simp [loader_loop]
  | cons q rest ih =>
    obtain ⟨pid, res⟩ := q
    cases res with
    | error err =>
      refine ⟨(ih seen).1, fun e he => ?_⟩
      have he' : e ∈ loader_loop rest seen := by
        simpa [loader_loop] using he
      obtain ⟨h1, cmdline, h2, h3⟩ := (ih seen).2 e he'
      exact ⟨h1, cmdline, List.mem_cons_of_mem _ h2, h3⟩
    | ok info =>
      obtain ⟨p_name, cl⟩ := info
      by_cases hskip : (seen.contains (pyLower p_name) || cl.isEmpty) = true
      · have hskip2 : pyLower p_name ∈ seen ∨ cl = [] := by simpa using hskip
        have heq : loader_loop ((pid, Except.ok (p_name, cl)) :: rest) seen =
            loader_loop rest seen := by
          rcases hskip2 with h | h <;> simp [loader_loop, h]
        rw [heq]
        refine ⟨(ih seen).1, fun e he => ?_⟩
        obtain ⟨h1, cmdline, h2, h3⟩ := (ih seen).2 e he
        exact ⟨h1, cmdline, List.mem_cons_of_mem _ h2, h3⟩
      · have hskip' : seen.contains (pyLower p_name) = false ∧ cl.isEmpty = false := by
          simpa [Bool.or_eq_true] using hskip
        have hs1 : pyLower p_name ∉ seen := by simpa using hskip'.1
        have hs2 : cl ≠ [] := by simpa using hskip'.2
        have heq : loader_loop ((pid, Except.ok (p_name, cl)) :: rest) seen =
            (p_name, pid) :: loader_loop rest (pyLower p_name :: seen) := by
          simp [loader_loop, hs1, hs2]
        rw [heq]
        constructor
        · simp only [List.map_cons, List.nodup_cons]
          refine ⟨fun hmem => ?_, (ih (pyLower p_name :: seen)).1⟩
          obtain ⟨e, he, heq2⟩ := List.mem_map.mp hmem
          have hc := ((ih (pyLower p_name :: seen)).2 e he).1
          rw [heq2] at hc
          simp [List.contains_cons] at hc
        · intro e he
          rcases List.mem_cons.mp he with he | he
          · subst he
            refine ⟨hskip'.1, cl, List.mem_cons_self _ _, ?_⟩
            intro hnil
            rw [hnil] at hskip'
            simp at hskip'
          · obtain ⟨h1, cmdline, h2, h3⟩ := (ih (pyLower p_name :: seen)).2 e he
            have h1' : seen.contains (pyLower e.1) = false := by
              simp only [List.contains_cons, Bool.or_eq_false_iff] at h1
              exact h1.2
            exact ⟨h1', cmdline, List.mem_cons_of_mem _ h2, h3⟩

/-- C9: the list emitted by `ProcessLoaderThread.run` has pairwise
case-insensitively distinct names, and every entry pairs a process name with
the PID whose (successful) query produced it together with a non-empty command
line — so empty-command-line processes are filtered out and PIDs whose query
raised one of the caught psutil exceptions contribute nothing. -/
theorem process_loader_list_invariants (pids : List PidQuery) :
    ((processLoaderRun pids).map (fun e => pyLower e.1)).Nodup ∧
    ∀ e ∈ processLoaderRun pids,
      ∃ cmdline, (e.2, Except.ok (e.1, cmdline)) ∈ pids ∧ cmdline ≠ [] := by
  refine ⟨(loader_loop_invariant pids []).1, fun e he => ?_⟩
  exact ((loader_loop_invariant pids []).2 e he).2

/-- Witness for C9: on a concrete enumeration with a case-insensitive
duplicate, an access-denied PID and an empty command line, only the first
`Chrome.exe` entry survives, and it traces back to PID 1's query. -/
theorem process_loader_list_invariants_witness :
    ((processLoaderRun
        [(1, Except.ok ("Chrome.exe", ["chrome"])),
         (2, Except.ok ("chrome.EXE", ["c"])),
         (3, Except.error PsError.accessDenied),
         (4, Except.ok ("x.exe", []))]).map (fun e => pyLower e.1)).Nodup ∧
    ∃ cmdline,
      ((1 : Nat), Except.ok ("Chrome.exe", cmdline)) ∈
        ([(1, Except.ok ("Chrome.exe", ["chrome"])),
          (2, Except.ok ("chrome.EXE", ["c"])),
          (3, Except.error PsError.accessDenied),
          (4, Except.ok ("x.exe", []))] : List PidQuery) ∧ cmdline ≠ [] := by
  refine ⟨(process_loader_list_invariants _).1, ?_⟩
  exact (process_loader_list_invariants
    [(1, Except.ok ("Chrome.exe", ["chrome"])),
     (2, Except.ok ("chrome.EXE", ["c"])),
     (3, Except.error PsError.accessDenied),
     (4, Except.ok ("x.exe", []))]).2 ("Chrome.exe", 1) (by decide)

end ConnectionBreaker
